import Mathlib

/-!
Verification of the pdfmerge repository (`src/pdf_merge.py`) against its
natural-language specification.

The program is a tkinter GUI around PyPDF2.  The parts the claims are about
are `PDFMergerGUI.merge_pdfs` (lines 271-332), `add_files_from_list`
(210-218), `remove_file` (220-227) and `clear_all` (229-233).  We embed them
shallowly:

* the filesystem and the PyPDF2 reader are an explicit environment `FS`
  (a map from paths to parseable PDF files, a set of existing directories,
  and per-path success flags for `open(..., 'wb')` and `os.makedirs`);
* `merge_pdfs` becomes a pure function from an `FS`, the ordered list
  `self.pdf_files` and the output path to a `MergeResult` holding the
  outcome (success dialog or error dialog), the updated filesystem, the
  list of observable events (reads, decryption attempts, mkdir, write) in
  program order, and the final state of the merge button;
* the GUI list operations become pure functions on `List String`.

The behaviour of `PyPDF2.PdfReader` itself is not part of `src/`; its
encrypted-document behaviour (a single empty-password attempt, failure if
that does not grant access) is modelled from the spec, section 4.3.
-/

namespace PdfMerge

/-- A parseable PDF file as the PyPDF2 reader sees it: a page sequence
(pages are opaque, numbered by `Nat`), an encryption flag, and whether the
single empty-password decryption attempt grants access. -/
structure PdfFile where
  pages : List Nat
  encrypted : Bool
  emptyPwOk : Bool
deriving DecidableEq, Repr

/-- The environment of one `merge_pdfs` call: which paths hold parseable
PDF files (`none` models a missing or unparseable file), which directories
exist, and whether opening a path for writing / creating a directory
succeeds (modelling OS-level failures such as permission denial). -/
structure FS where
  files : String → Option PdfFile
  dirs : String → Bool
  writeOk : String → Bool
  mkdirOk : String → Bool

/-- `os.makedirs(d)` succeeded: record the directory as existing. -/
def FS.withDir (fs : FS) (d : String) : FS :=
  ⟨fs.files, fun x => if x = d then true else fs.dirs x, fs.writeOk, fs.mkdirOk⟩

/-- `pdf_writer.write(f)` on a freshly opened `'wb'` handle: the file at
`p` now holds exactly the written page sequence (unencrypted). -/
def FS.withFile (fs : FS) (p : String) (doc : PdfFile) : FS :=
  ⟨fun x => if x = p then some doc else fs.files x, fs.dirs, fs.writeOk, fs.mkdirOk⟩

/-- Observable events of one merge, in program order. -/
inductive Ev where
  | read (p : String)
  | decrypt (p : String)
  | mkdir (d : String)
  | write (p : String) (pages : List Nat)
deriving DecidableEq, Repr

/-- `os.path.basename`: the part of the path after the last slash. -/
def basename (s : String) : String :=
  String.mk ((s.toList.reverse.takeWhile (fun c => c ≠ '/')).reverse)

/-- `os.path.dirname`: the part of the path before the last slash
(empty when there is no slash, `"/"` for a file directly under the root). -/
def dirname (s : String) : String :=
  match s.toList.reverse.dropWhile (fun c => c ≠ '/') with
  | [] => ""
  | _ :: rest =>
    match rest with
    | [] => "/"
    | _ => String.mk rest.reverse

/-- Modelled from the spec: the behaviour of the external PyPDF2
`PdfReader(path)` plus the `reader.pages` access, which is not code of this
repository.  Per spec section 4.3: an unparseable or missing file raises;
an encrypted document gets exactly one empty-password decryption attempt
and raises if that attempt does not yield access; otherwise the page
sequence is returned unchanged.  The second component is the event trace of
the call. -/
def readPdf (m : String → Option PdfFile) (p : String) :
    Except String (List Nat) × List Ev :=
  match m p with
  | none => (Except.error "could not read file", [Ev.read p])
  | some d =>
    if d.encrypted then
      if d.emptyPwOk then (Except.ok d.pages, [Ev.read p, Ev.decrypt p])
      else (Except.error "File has not been decrypted", [Ev.read p, Ev.decrypt p])
    else (Except.ok d.pages, [Ev.read p])

/-- Whether `readPdf` succeeds on `p`. -/
def readableB (m : String → Option PdfFile) (p : String) : Bool :=
  match m p with
  | none => false
  | some d => !d.encrypted || d.emptyPwOk

/-- The page sequence of the file at `p` (meaningful when readable). -/
def pagesOf (m : String → Option PdfFile) (p : String) : List Nat :=
  match m p with
  | none => []
  | some d => d.pages

/-- The exception message `readPdf` produces on an unreadable file. -/
def readErrMsg (m : String → Option PdfFile) (p : String) : String :=
  match m p with
  | none => "could not read file"
  | some _ => "File has not been decrypted"

/-- The event trace of one `readPdf` call. -/
def readTrace (m : String → Option PdfFile) (p : String) : List Ev :=
  (readPdf m p).2

/-- The file at `p` is encrypted and its empty-password attempt fails. -/
def encUnreadable (m : String → Option PdfFile) (p : String) : Bool :=
  match m p with
  | none => false
  | some d => d.encrypted && !d.emptyPwOk

/-- First loop of `merge_pdfs` (lines 286-293): per source, open it and
accumulate its page count; on the first unreadable source, show the
"Could not read ..." dialog and return. -/
def pass1 (m : String → Option PdfFile) : List String → Except String Nat × List Ev
  | [] => (Except.ok 0, [])
  | f :: rest =>
    match readPdf m f with
    | (Except.ok pgs, tr) =>
      match pass1 m rest with
      | (Except.ok n, tr2) => (Except.ok (pgs.length + n), tr ++ tr2)
      | (Except.error msg, tr2) => (Except.error msg, tr ++ tr2)
    | (Except.error e, tr) =>
      (Except.error ("Could not read " ++ basename f ++ ": " ++ e), tr)

/-- Second loop of `merge_pdfs` (lines 296-315): per source, open it again
and append all its pages to the writer; on the first unreadable source,
show the "Error processing ..." dialog and return. -/
def pass2 (m : String → Option PdfFile) : List String → Except String (List Nat) × List Ev
  | [] => (Except.ok [], [])
  | f :: rest =>
    match readPdf m f with
    | (Except.ok pgs, tr) =>
      match pass2 m rest with
      | (Except.ok acc, tr2) => (Except.ok (pgs ++ acc), tr ++ tr2)
      | (Except.error msg, tr2) => (Except.error msg, tr ++ tr2)
    | (Except.error e, tr) =>
      (Except.error ("Error processing " ++ basename f ++ ": " ++ e), tr)

/-- What the `merge_pdfs` dialogs show: a success message box or an error
message box. -/
inductive Outcome where
  | success (outputPath : String)
  | errorDialog (msg : String)
deriving DecidableEq, Repr

/-- How the body of `merge_pdfs` (inside the outer `try`) ends: either an
exception propagates to the outer handler (`raised`), or the body runs to
a `return` having already shown its dialog (`returned`). -/
inductive BodyResult where
  | raised (e : String)
  | returned (o : Outcome)
deriving DecidableEq, Repr

/-- Lines 281-320 after the directory step: the two read passes followed by
opening the output for writing.  A pass failure shows its dialog and
returns; a write-open failure raises to the outer handler. -/
def afterDir (fs : FS) (files : List String) (outputPath : String) (tr0 : List Ev) :
    BodyResult × FS × List Ev :=
  match pass1 fs.files files with
  | (Except.error msg, tr1) =>
    (BodyResult.returned (Outcome.errorDialog msg), fs, tr0 ++ tr1)
  | (Except.ok _, tr1) =>
    match pass2 fs.files files with
    | (Except.error msg, tr2) =>
      (BodyResult.returned (Outcome.errorDialog msg), fs, tr0 ++ tr1 ++ tr2)
    | (Except.ok pgs, tr2) =>
      if fs.writeOk outputPath then
        (BodyResult.returned (Outcome.success outputPath),
         fs.withFile outputPath ⟨pgs, false, false⟩,
         tr0 ++ tr1 ++ tr2 ++ [Ev.write outputPath pgs])
      else (BodyResult.raised "write failed", fs, tr0 ++ tr1 ++ tr2)

/-- The body of `merge_pdfs` inside the outer `try` (lines 274-326):
`output_dir = os.path.dirname(output_path)`; if it is nonempty and does not
exist, `os.makedirs` it (raising on OS failure); then the two passes and
the write. -/
def mergeBody (fs : FS) (files : List String) (outputPath : String) :
    BodyResult × FS × List Ev :=
  let d := dirname outputPath
  if d == "" || fs.dirs d then afterDir fs files outputPath []
  else if fs.mkdirOk d then afterDir (fs.withDir d) files outputPath [Ev.mkdir d]
  else (BodyResult.raised "makedirs failed", fs, [Ev.mkdir d])

/-- The observable result of one `merge_pdfs` call. -/
structure MergeResult where
  outcome : Outcome
  fs : FS
  trace : List Ev
  mergeBtnEnabled : Bool

/-- `PDFMergerGUI.merge_pdfs` (lines 271-332): run the body; the outer
`except` maps any raised exception to the "Merge failed: ..." dialog; the
`finally` re-enables the merge button on every path. -/
def mergePdfs (fs : FS) (files : List String) (outputPath : String) : MergeResult :=
  match mergeBody fs files outputPath with
  | (BodyResult.returned o, fs2, tr) => ⟨o, fs2, tr, true⟩
  | (BodyResult.raised e, fs2, tr) =>
    ⟨Outcome.errorDialog ("Merge failed: " ++ e), fs2, tr, true⟩

/-- The directory step of `merge_pdfs` does not raise: the dirname is
empty, or the directory exists, or `os.makedirs` succeeds. -/
def dirOkB (fs : FS) (outputPath : String) : Bool :=
  dirname outputPath == "" || fs.dirs (dirname outputPath)
    || fs.mkdirOk (dirname outputPath)

/-- `PDFMergerGUI.add_files_from_list` (lines 210-218): append each given
path to `self.pdf_files` unless an equal string is already present. -/
def addFilesFromList (pdfFiles : List String) (files : List String) : List String :=
  files.foldl (fun acc f => if f ∈ acc then acc else acc ++ [f]) pdfFiles

/-- `PDFMergerGUI.remove_file` (lines 220-227): delete the entry at the
selected index from `self.pdf_files`. -/
def removeFile (pdfFiles : List String) (i : Nat) : List String :=
  pdfFiles.eraseIdx i

/-- `PDFMergerGUI.clear_all` (lines 229-233): `self.pdf_files.clear()`. -/
def clearAll : List String := []

/-- Occurrences of an event in a trace. -/
def countEv (e : Ev) : List Ev → Nat
  | [] => 0
  | x :: xs => (if x = e then 1 else 0) + countEv e xs

/-- Whether a trace contains a write event, i.e. whether any bytes were
written to any destination. -/
def hasWrite : List Ev → Bool
  | [] => false
  | Ev.write _ _ :: _ => true
  | _ :: xs => hasWrite xs

/-- The filesystem after the directory step of `merge_pdfs`, when that step
does not raise. -/
def fsAfterDir (fs : FS) (out : String) : FS :=
  if dirname out == "" || fs.dirs (dirname out) then fs
  else fs.withDir (dirname out)

/-- The event trace of the directory step of `merge_pdfs`, when that step
does not raise. -/
def mkTr0 (fs : FS) (out : String) : List Ev :=
  if dirname out == "" || fs.dirs (dirname out) then []
  else [Ev.mkdir (dirname out)]

/-! Concrete environments used by the witness and counterexample
theorems. -/

/-- A valid single-page PDF (page 1). -/
def fileA : PdfFile := ⟨[1], false, false⟩

/-- A valid single-page PDF (page 2). -/
def fileB : PdfFile := ⟨[2], false, false⟩

/-- A filesystem map holding two valid single-page PDFs. -/
def mAB : String → Option PdfFile := fun p =>
  if p = "a.pdf" then some fileA else if p = "b.pdf" then some fileB else none

/-- Two valid sources; all writes and directory creations succeed. -/
def fsOk : FS := ⟨mAB, fun _ => false, fun _ => true, fun _ => true⟩

/-- Two valid sources, but opening any path for writing fails. -/
def fsNoWrite : FS := ⟨mAB, fun _ => false, fun _ => false, fun _ => true⟩

/-- One valid source; `bad.pdf` is missing or unparseable. -/
def mBad : String → Option PdfFile := fun p =>
  if p = "a.pdf" then some fileA else none

/-- Environment with an unreadable second source. -/
def fsBad : FS := ⟨mBad, fun _ => false, fun _ => true, fun _ => true⟩

/-- `b.pdf` is encrypted and its empty-password attempt grants access. -/
def mEncOk : String → Option PdfFile := fun p =>
  if p = "a.pdf" then some fileA
  else if p = "b.pdf" then some ⟨[2], true, true⟩ else none

/-- Environment with a decryptable encrypted second source. -/
def fsEncOk : FS := ⟨mEncOk, fun _ => false, fun _ => true, fun _ => true⟩

/-- `b.pdf` is encrypted and its empty-password attempt fails. -/
def mEncBad : String → Option PdfFile := fun p =>
  if p = "a.pdf" then some fileA
  else if p = "b.pdf" then some ⟨[2], true, false⟩ else none

/-- Environment with an undecryptable encrypted second source. -/
def fsEncBad : FS := ⟨mEncBad, fun _ => false, fun _ => true, fun _ => true⟩

/-- Like `mAB`, but the destination `out.pdf` already holds an old
single-page document (page 99). -/
def mExisting : String → Option PdfFile := fun p =>
  if p = "out.pdf" then some ⟨[99], false, false⟩ else mAB p

/-- Environment where the destination file already exists. -/
def fsExisting : FS := ⟨mExisting, fun _ => false, fun _ => true, fun _ => true⟩

/-- A path canonicalization in which the strings `"x.pdf"` and
`"./x.pdf"` resolve to the same underlying file. -/
def canonEx : String → Nat :=
  fun s => if s = "x.pdf" then 0 else if s = "./x.pdf" then 0 else 1

/-! Basic lemmas about `readPdf`. -/

theorem readPdf_eq_ok (m : String → Option PdfFile) (f : String)
    (h : readableB m f = true) :
    readPdf m f = (Except.ok (pagesOf m f), readTrace m f) := by
  unfold readableB at h
  unfold readTrace pagesOf readPdf
  cases hm : m f with
  | none => rw [hm] at h; cases h
  | some d =>
    rw [hm] at h
    cases hd : d.encrypted <;> cases hp : d.emptyPwOk <;> simp_all

theorem readPdf_eq_err (m : String → Option PdfFile) (f : String)
    (h : readableB m f = false) :
    readPdf m f = (Except.error (readErrMsg m f), readTrace m f) := by
  unfold readableB at h
  unfold readTrace readErrMsg readPdf
  cases hm : m f with
  | none => simp
  | some d =>
    rw [hm] at h
    cases hd : d.encrypted <;> cases hp : d.emptyPwOk <;> simp_all

theorem readTrace_shape (m : String → Option PdfFile) (g : String) :
    readTrace m g = [Ev.read g] ∨ readTrace m g = [Ev.read g, Ev.decrypt g] := by
  unfold readTrace readPdf
  cases m g with
  | none => left; rfl
  | some d =>
    obtain ⟨pgs, enc, pw⟩ := d
    cases enc with
    | false => left; rfl
    | true => cases pw with
      | false => right; rfl
      | true => right; rfl

/-! Counting and write-detection lemmas for traces. -/

theorem countEv_append (e : Ev) (a b : List Ev) :
    countEv e (a ++ b) = countEv e a + countEv e b := by
  induction a with
  | nil => simp [countEv]
  | cons x xs ih => simp [countEv, ih]; omega

theorem countEv_read_readTrace (m : String → Option PdfFile) (f g : String) :
    countEv (Ev.read f) (readTrace m g) = if g = f then 1 else 0 := by
  rcases readTrace_shape m g with h | h <;> rw [h] <;> simp [countEv]

theorem countEv_decrypt_readTrace_ne (m : String → Option PdfFile) (f g : String)
    (h : g ≠ f) : countEv (Ev.decrypt f) (readTrace m g) = 0 := by
  rcases readTrace_shape m g with hs | hs <;> rw [hs] <;> simp [countEv, h]

theorem countEv_decrypt_readTrace_self (m : String → Option PdfFile) (x : String)
    (h : encUnreadable m x = true) :
    countEv (Ev.decrypt x) (readTrace m x) = 1 := by
  unfold encUnreadable at h
  unfold readTrace readPdf
  cases hm : m x with
  | none => rw [hm] at h; cases h
  | some d =>
    rw [hm] at h
    cases hd : d.encrypted <;> cases hp : d.emptyPwOk <;> simp_all [countEv]

theorem hasWrite_append (a b : List Ev) :
    hasWrite (a ++ b) = (hasWrite a || hasWrite b) := by
  induction a with
  | nil => simp [hasWrite]
  | cons x xs ih => cases x <;> simp [hasWrite, ih]

theorem hasWrite_readTrace (m : String → Option PdfFile) (g : String) :
    hasWrite (readTrace m g) = false := by
  rcases readTrace_shape m g with h | h <;> rw [h] <;> rfl

theorem hasWrite_joinReads (m : String → Option PdfFile) :
    ∀ l : List String, hasWrite ((l.map (readTrace m)).flatten) = false
  | [] => rfl
  | g :: l => by
    simp only [List.map_cons, List.flatten_cons, hasWrite_append,
      hasWrite_readTrace, hasWrite_joinReads m l, Bool.or_self]

theorem countEv_read_joinReads (m : String → Option PdfFile) (f : String) :
    ∀ l : List String,
      countEv (Ev.read f) ((l.map (readTrace m)).flatten) = l.count f
  | [] => by simp [countEv]
  | g :: l => by
    simp only [List.map_cons, List.flatten_cons, countEv_append,
      countEv_read_readTrace, countEv_read_joinReads m f l, List.count_cons]
    by_cases h : g = f
    · simp [h, Nat.add_comm]
    · simp [h, Ne.symm h]

theorem countEv_decrypt_joinReads (m : String → Option PdfFile) (x : String)
    (hx : readableB m x = false) :
    ∀ pre : List String, pre.all (readableB m) = true →
      countEv (Ev.decrypt x) ((pre.map (readTrace m)).flatten) = 0
  | [], _ => rfl
  | g :: pre, h => by
    have h2 : readableB m g = true ∧ pre.all (readableB m) = true := by
      simpa [List.all_cons] using h
    obtain ⟨hg, hp⟩ := h2
    have hgx : g ≠ x := fun he => by rw [he, hx] at hg; cases hg
    simp only [List.map_cons, List.flatten_cons, countEv_append,
      countEv_decrypt_readTrace_ne m x g hgx,
      countEv_decrypt_joinReads m x hx pre hp]

/-! Behaviour of the two read passes. -/

theorem pass1_ok (m : String → Option PdfFile) :
    ∀ files : List String, files.all (readableB m) = true →
      ∃ n, pass1 m files = (Except.ok n, (files.map (readTrace m)).flatten)
  | [], _ => ⟨0, rfl⟩
  | f :: rest, h => by
    have h2 : readableB m f = true ∧ rest.all (readableB m) = true := by
      simpa [List.all_cons] using h
    obtain ⟨n, hn⟩ := pass1_ok m rest h2.2
    refine ⟨(pagesOf m f).length + n, ?_⟩
    simp only [pass1, readPdf_eq_ok m f h2.1, hn, List.map_cons, List.flatten_cons]

theorem pass2_ok (m : String → Option PdfFile) :
    ∀ files : List String, files.all (readableB m) = true →
      pass2 m files =
        (Except.ok ((files.map (pagesOf m)).flatten), (files.map (readTrace m)).flatten)
  | [], _ => rfl
  | f :: rest, h => by
    have h2 : readableB m f = true ∧ rest.all (readableB m) = true := by
      simpa [List.all_cons] using h
    simp only [pass2, readPdf_eq_ok m f h2.1, pass2_ok m rest h2.2,
      List.map_cons, List.flatten_cons]

theorem pass1_err (m : String → Option PdfFile) (x : String) (post : List String)
    (hx : readableB m x = false) :
    ∀ pre : List String, pre.all (readableB m) = true →
      pass1 m (pre ++ x :: post) =
        (Except.error ("Could not read " ++ basename x ++ ": " ++ readErrMsg m x),
         (pre.map (readTrace m)).flatten ++ readTrace m x)
  | [], _ => by
    simp only [List.nil_append, List.map_nil, List.flatten_nil]
    simp [pass1, readPdf_eq_err m x hx]
  | f :: pre, h => by
    have h2 : readableB m f = true ∧ pre.all (readableB m) = true := by
      simpa [List.all_cons] using h
    rw [List.cons_append]
    simp only [pass1, readPdf_eq_ok m f h2.1, pass1_err m x post hx pre h2.2,
      List.map_cons, List.flatten_cons, List.append_assoc]

/-! Behaviour of `mergeBody` and `mergePdfs`. -/

theorem fsAfterDir_files (fs : FS) (out : String) :
    (fsAfterDir fs out).files = fs.files := by
  unfold fsAfterDir
  split <;> rfl

theorem fsAfterDir_writeOk (fs : FS) (out : String) :
    (fsAfterDir fs out).writeOk = fs.writeOk := by
  unfold fsAfterDir
  split <;> rfl

theorem mergeBody_dirOk (fs : FS) (files : List String) (out : String)
    (h1 : dirOkB fs out = true) :
    mergeBody fs files out = afterDir (fsAfterDir fs out) files out (mkTr0 fs out) := by
  unfold dirOkB at h1
  unfold mergeBody fsAfterDir mkTr0
  cases hc : (dirname out == "" || fs.dirs (dirname out)) with
  | true => simp [hc]
  | false =>
    rw [hc, Bool.false_or] at h1
    simp [hc, h1]

theorem mergeBody_dirBad (fs : FS) (files : List String) (out : String)
    (h1 : dirOkB fs out = false) :
    mergeBody fs files out =
      (BodyResult.raised "makedirs failed", fs, [Ev.mkdir (dirname out)]) := by
  unfold dirOkB at h1
  unfold mergeBody
  cases hc : (dirname out == "" || fs.dirs (dirname out)) with
  | true => rw [hc, Bool.true_or] at h1; cases h1
  | false =>
    rw [hc, Bool.false_or] at h1
    simp [hc, h1]

theorem afterDir_ok (fs : FS) (files : List String) (out : String) (tr0 : List Ev)
    (h2 : files.all (readableB fs.files) = true) (h3 : fs.writeOk out = true) :
    afterDir fs files out tr0 =
      (BodyResult.returned (Outcome.success out),
       fs.withFile out ⟨(files.map (pagesOf fs.files)).flatten, false, false⟩,
       tr0 ++ (files.map (readTrace fs.files)).flatten
         ++ (files.map (readTrace fs.files)).flatten
         ++ [Ev.write out ((files.map (pagesOf fs.files)).flatten)]) := by
  obtain ⟨n, hn⟩ := pass1_ok fs.files files h2
  unfold afterDir
  rw [hn, pass2_ok fs.files files h2]
  simp [h3]

theorem afterDir_writeBad (fs : FS) (files : List String) (out : String) (tr0 : List Ev)
    (h2 : files.all (readableB fs.files) = true) (h3 : fs.writeOk out = false) :
    afterDir fs files out tr0 =
      (BodyResult.raised "write failed", fs,
       tr0 ++ (files.map (readTrace fs.files)).flatten
         ++ (files.map (readTrace fs.files)).flatten) := by
  obtain ⟨n, hn⟩ := pass1_ok fs.files files h2
  unfold afterDir
  rw [hn, pass2_ok fs.files files h2]
  simp [h3]

theorem afterDir_err (fs : FS) (pre : List String) (x : String) (post : List String)
    (out : String) (tr0 : List Ev)
    (h2 : pre.all (readableB fs.files) = true) (hx : readableB fs.files x = false) :
    afterDir fs (pre ++ x :: post) out tr0 =
      (BodyResult.returned (Outcome.errorDialog
         ("Could not read " ++ basename x ++ ": " ++ readErrMsg fs.files x)),
       fs,
       tr0 ++ ((pre.map (readTrace fs.files)).flatten ++ readTrace fs.files x)) := by
  unfold afterDir
  rw [pass1_err fs.files x post hx pre h2]

theorem mergePdfs_success (fs : FS) (files : List String) (out : String)
    (h1 : dirOkB fs out = true) (h2 : files.all (readableB fs.files) = true)
    (h3 : fs.writeOk out = true) :
    mergePdfs fs files out =
      ⟨Outcome.success out,
       (fsAfterDir fs out).withFile out
         ⟨(files.map (pagesOf fs.files)).flatten, false, false⟩,
       mkTr0 fs out ++ (files.map (readTrace fs.files)).flatten
         ++ (files.map (readTrace fs.files)).flatten
         ++ [Ev.write out ((files.map (pagesOf fs.files)).flatten)],
       true⟩ := by
  unfold mergePdfs
  rw [mergeBody_dirOk fs files out h1,
    afterDir_ok (fsAfterDir fs out) files out (mkTr0 fs out)
      (by rw [fsAfterDir_files]; exact h2)
      (by rw [fsAfterDir_writeOk]; exact h3)]
  rw [fsAfterDir_files]

theorem mergePdfs_fail (fs : FS) (pre : List String) (x : String) (post : List String)
    (out : String)
    (h1 : dirOkB fs out = true) (h2 : pre.all (readableB fs.files) = true)
    (hx : readableB fs.files x = false) :
    mergePdfs fs (pre ++ x :: post) out =
      ⟨Outcome.errorDialog
         ("Could not read " ++ basename x ++ ": " ++ readErrMsg fs.files x),
       fsAfterDir fs out,
       mkTr0 fs out ++ ((pre.map (readTrace fs.files)).flatten ++ readTrace fs.files x),
       true⟩ := by
  unfold mergePdfs
  rw [mergeBody_dirOk fs (pre ++ x :: post) out h1,
    afterDir_err (fsAfterDir fs out) pre x post out (mkTr0 fs out)
      (by rw [fsAfterDir_files]; exact h2)
      (by rw [fsAfterDir_files]; exact hx)]
  rw [fsAfterDir_files]

theorem mergePdfs_writeBad (fs : FS) (files : List String) (out : String)
    (h1 : dirOkB fs out = true) (h2 : files.all (readableB fs.files) = true)
    (h3 : fs.writeOk out = false) :
    mergePdfs fs files out =
      ⟨Outcome.errorDialog ("Merge failed: " ++ "write failed"),
       fsAfterDir fs out,
       mkTr0 fs out ++ (files.map (readTrace fs.files)).flatten
         ++ (files.map (readTrace fs.files)).flatten,
       true⟩ := by
  unfold mergePdfs
  rw [mergeBody_dirOk fs files out h1,
    afterDir_writeBad (fsAfterDir fs out) files out (mkTr0 fs out)
      (by rw [fsAfterDir_files]; exact h2)
      (by rw [fsAfterDir_writeOk]; exact h3)]
  rw [fsAfterDir_files]

theorem withFile_files_self (fs : FS) (p : String) (doc : PdfFile) :
    (fs.withFile p doc).files p = some doc := by
  unfold FS.withFile
  simp

/-- First-failure decomposition: a list whose `all` is false splits at its
first failing element. -/
theorem exists_first_fail {α : Type} (p : α → Bool) :
    ∀ l : List α, l.all p = false →
      ∃ pre x post, l = pre ++ x :: post ∧ pre.all p = true ∧ p x = false
  | [], h => by simp [List.all_nil] at h
  | a :: l, h => by
    cases ha : p a with
    | false => exact ⟨[], a, l, rfl, rfl, ha⟩
    | true =>
      have hl : l.all p = false := by simpa [List.all_cons, ha] using h
      obtain ⟨pre, x, post, he, hp, hx⟩ := exists_first_fail p l hl
      exact ⟨a :: pre, x, post, by rw [he, List.cons_append],
        by simp [List.all_cons, ha, hp], hx⟩

theorem hasWrite_mkTr0 (fs : FS) (out : String) : hasWrite (mkTr0 fs out) = false := by
  unfold mkTr0
  split <;> rfl

theorem countEv_read_mkTr0 (fs : FS) (out : String) (f : String) :
    countEv (Ev.read f) (mkTr0 fs out) = 0 := by
  unfold mkTr0
  split <;> simp [countEv]

theorem countEv_decrypt_mkTr0 (fs : FS) (out : String) (f : String) :
    countEv (Ev.decrypt f) (mkTr0 fs out) = 0 := by
  unfold mkTr0
  split <;> simp [countEv]

theorem encUnreadable_not_readable (m : String → Option PdfFile) (x : String)
    (h : encUnreadable m x = true) : readableB m x = false := by
  cases hm : m x with
  | none => unfold readableB; rw [hm]
  | some d =>
    unfold encUnreadable at h
    rw [hm] at h
    unfold readableB
    rw [hm]
    obtain ⟨pgs, enc, pw⟩ := d
    cases enc <;> cases pw <;> simp_all

theorem readErrMsg_enc (m : String → Option PdfFile) (x : String)
    (h : encUnreadable m x = true) :
    readErrMsg m x = "File has not been decrypted" := by
  cases hm : m x with
  | none => unfold encUnreadable at h; rw [hm] at h; cases h
  | some d => unfold readErrMsg; rw [hm]

theorem fsAfterDir_dirs_created (fs : FS) (out : String)
    (hd : (dirname out == "" || fs.dirs (dirname out)) = false) :
    (fsAfterDir fs out).dirs (dirname out) = true := by
  unfold fsAfterDir
  rw [hd]
  simp [FS.withDir]

theorem addFilesFromList_nodup :
    ∀ (files cur : List String), cur.Nodup → (addFilesFromList cur files).Nodup
  | [], _, h => h
  | f :: fl, cur, h => by
    by_cases hf : f ∈ cur
    · have he : addFilesFromList cur (f :: fl) = addFilesFromList cur fl := by
        unfold addFilesFromList
        rw [List.foldl_cons, if_pos hf]
      rw [he]
      exact addFilesFromList_nodup fl cur h
    · have he : addFilesFromList cur (f :: fl) = addFilesFromList (cur ++ [f]) fl := by
        unfold addFilesFromList
        rw [List.foldl_cons, if_neg hf]
      rw [he]
      refine addFilesFromList_nodup fl (cur ++ [f]) ?_
      simp [List.nodup_append, h, hf]

/-! The claims. -/

/-- Claim C1: for every request of valid (readable) source documents, with
the directory step and the final write succeeding, the merged output's page
sequence equals the concatenation, in request order, of each source's pages
in their existing internal order — a function of the request list only, not
of filenames. -/
theorem C1_pages_concatenated_in_request_order (fs : FS) (files : List String)
    (out : String)
    (h1 : dirOkB fs out = true) (h2 : files.all (readableB fs.files) = true)
    (h3 : fs.writeOk out = true) :
    (mergePdfs fs files out).outcome = Outcome.success out ∧
    (mergePdfs fs files out).fs.files out =
      some ⟨(files.map (pagesOf fs.files)).flatten, false, false⟩ := by
  rw [mergePdfs_success fs files out h1 h2 h3]
  exact ⟨rfl, withFile_files_self _ _ _⟩

/-- Witness for C1, both orders of the two single-page sources `a.pdf`
(page 1) and `b.pdf` (page 2): `[A, B]` gives pages `[1, 2]`, `[B, A]`
gives `[2, 1]`. -/
theorem C1_pages_concatenated_witness :
    (mergePdfs fsOk ["a.pdf", "b.pdf"] "out.pdf").outcome =
      Outcome.success "out.pdf" ∧
    (mergePdfs fsOk ["a.pdf", "b.pdf"] "out.pdf").fs.files "out.pdf" =
      some ⟨[1, 2], false, false⟩ ∧
    (mergePdfs fsOk ["b.pdf", "a.pdf"] "out.pdf").fs.files "out.pdf" =
      some ⟨[2, 1], false, false⟩ :=
  ⟨(C1_pages_concatenated_in_request_order fsOk ["a.pdf", "b.pdf"] "out.pdf"
      rfl rfl rfl).1,
   (C1_pages_concatenated_in_request_order fsOk ["a.pdf", "b.pdf"] "out.pdf"
      rfl rfl rfl).2,
   (C1_pages_concatenated_in_request_order fsOk ["b.pdf", "a.pdf"] "out.pdf"
      rfl rfl rfl).2⟩

/-- Counterexample to C2 as stated: in `fsNoWrite` both sources pass
validation and assembly (both are readable), yet the merge does not
succeed, because opening the destination for writing fails — so "the merge
succeeds if and only if every source passes validation and assembly" is
false in the only-if-to-if direction. -/
theorem C2_counterexample :
    (["a.pdf", "b.pdf"].all (readableB fsNoWrite.files) = true) ∧
    (mergePdfs fsNoWrite ["a.pdf", "b.pdf"] "out.pdf").outcome =
      Outcome.errorDialog "Merge failed: write failed" :=
  ⟨rfl, rfl⟩

/-- Claim C2 (amended): the merge succeeds iff every source is readable AND
the directory step and the output write succeed; and whenever any source is
corrupt or encrypted-unreadable, the operation aborts with no write event
at all (zero bytes written anywhere) and the filesystem's files unchanged —
fail-fast, no partial output. -/
theorem C2_success_iff_and_failfast (fs : FS) (files : List String) (out : String) :
    ((mergePdfs fs files out).outcome = Outcome.success out ↔
      (dirOkB fs out && files.all (readableB fs.files) && fs.writeOk out) = true) ∧
    (files.all (readableB fs.files) = false →
      hasWrite (mergePdfs fs files out).trace = false ∧
      (mergePdfs fs files out).fs.files = fs.files) := by
  constructor
  · constructor
    · intro hs
      cases h1 : dirOkB fs out with
      | false =>
        unfold mergePdfs at hs
        rw [mergeBody_dirBad fs files out h1] at hs
        cases hs
      | true =>
        cases h2 : files.all (readableB fs.files) with
        | false =>
          obtain ⟨pre, x, post, he, hp, hx⟩ :=
            exists_first_fail (readableB fs.files) files h2
          rw [he, mergePdfs_fail fs pre x post out h1 hp hx] at hs
          cases hs
        | true =>
          cases h3 : fs.writeOk out with
          | false => rw [mergePdfs_writeBad fs files out h1 h2 h3] at hs; cases hs
          | true => simp [h1, h2, h3]
    · intro hb
      have hb2 : (dirOkB fs out = true ∧ files.all (readableB fs.files) = true) ∧
          fs.writeOk out = true := by simpa [Bool.and_eq_true] using hb
      rw [mergePdfs_success fs files out hb2.1.1 hb2.1.2 hb2.2]
  · intro h2
    cases h1 : dirOkB fs out with
    | false =>
      unfold mergePdfs
      rw [mergeBody_dirBad fs files out h1]
      exact ⟨rfl, rfl⟩
    | true =>
      obtain ⟨pre, x, post, he, hp, hx⟩ :=
        exists_first_fail (readableB fs.files) files h2
      rw [he, mergePdfs_fail fs pre x post out h1 hp hx]
      refine ⟨?_, fsAfterDir_files fs out⟩
      simp [hasWrite_append, hasWrite_mkTr0, hasWrite_joinReads, hasWrite_readTrace]

/-- Witness for the amended C2 at a concrete input: with the second source
unreadable, the merge writes nothing and leaves every file unchanged. -/
theorem C2_success_iff_witness :
    hasWrite (mergePdfs fsBad ["a.pdf", "bad.pdf"] "out.pdf").trace = false ∧
    (mergePdfs fsBad ["a.pdf", "bad.pdf"] "out.pdf").fs.files = fsBad.files :=
  (C2_success_iff_and_failfast fsBad ["a.pdf", "bad.pdf"] "out.pdf").2 rfl

/-- Counterexample to C3 as stated: in a successful merge of two sources,
`a.pdf` is opened twice (once by the page-counting loop, once by the
assembly loop), so a source IS read more than once per merge. -/
theorem C3_counterexample :
    countEv (Ev.read "a.pdf") (mergePdfs fsOk ["a.pdf", "b.pdf"] "out.pdf").trace = 2 :=
  rfl

/-- Claim C3 (amended): during a merge in which all sources are readable
and the write succeeds, each source path is read exactly twice per
occurrence in the request (once to count pages, once to assemble), not at
most once. -/
theorem C3_each_source_read_twice (fs : FS) (files : List String) (out : String)
    (f : String)
    (h1 : dirOkB fs out = true) (h2 : files.all (readableB fs.files) = true)
    (h3 : fs.writeOk out = true) :
    countEv (Ev.read f) (mergePdfs fs files out).trace = 2 * files.count f := by
  rw [mergePdfs_success fs files out h1 h2 h3]
  simp only [countEv_append, countEv_read_mkTr0, countEv_read_joinReads]
  simp [countEv]
  omega

/-- Witness for the amended C3: `b.pdf` occurs once in the request and is
read twice. -/
theorem C3_each_source_read_twice_witness :
    countEv (Ev.read "b.pdf") (mergePdfs fsOk ["a.pdf", "b.pdf"] "out.pdf").trace =
      2 * (["a.pdf", "b.pdf"].count "b.pdf") :=
  C3_each_source_read_twice fsOk ["a.pdf", "b.pdf"] "out.pdf" "b.pdf" rfl rfl rfl

/-- Counterexample to C4 as stated: `b.pdf` is encrypted and its
empty-password attempt succeeds; since the merge opens every source twice,
the merge makes TWO decryption attempts on it, not exactly one. -/
theorem C4_counterexample :
    (mergePdfs fsEncOk ["a.pdf", "b.pdf"] "out.pdf").outcome =
      Outcome.success "out.pdf" ∧
    countEv (Ev.decrypt "b.pdf")
      (mergePdfs fsEncOk ["a.pdf", "b.pdf"] "out.pdf").trace = 2 :=
  ⟨rfl, rfl⟩

/-- Claim C4 (amended): each open of an encrypted source makes exactly one
empty-password decryption attempt.  When the attempt fails, the merge stops
at that source during the page-counting pass — so that source gets exactly
one decryption attempt in the whole merge — and fails with a dialog naming
it, with no further password attempts, no write event, and all files
unchanged; this holds for any position of the encrypted source in the
request (any readable prefix `pre`).  A decryptable encrypted source, by
contrast, is decrypted once per open, i.e. twice per successful merge. -/
theorem C4_encrypted_failfast (fs : FS) (pre : List String) (x : String)
    (post : List String) (out : String)
    (h1 : dirOkB fs out = true) (h2 : pre.all (readableB fs.files) = true)
    (hx : encUnreadable fs.files x = true) :
    (mergePdfs fs (pre ++ x :: post) out).outcome =
      Outcome.errorDialog
        ("Could not read " ++ basename x ++ ": " ++ "File has not been decrypted") ∧
    countEv (Ev.decrypt x) (mergePdfs fs (pre ++ x :: post) out).trace = 1 ∧
    hasWrite (mergePdfs fs (pre ++ x :: post) out).trace = false ∧
    (mergePdfs fs (pre ++ x :: post) out).fs.files = fs.files := by
  have hxr : readableB fs.files x = false := encUnreadable_not_readable fs.files x hx
  have herr : readErrMsg fs.files x = "File has not been decrypted" :=
    readErrMsg_enc fs.files x hx
  rw [mergePdfs_fail fs pre x post out h1 h2 hxr]
  refine ⟨by rw [herr], ?_, ?_, fsAfterDir_files fs out⟩
  · simp only [countEv_append, countEv_decrypt_mkTr0,
      countEv_decrypt_joinReads fs.files x hxr pre h2,
      countEv_decrypt_readTrace_self fs.files x hx]
  · simp [hasWrite_append, hasWrite_mkTr0, hasWrite_joinReads, hasWrite_readTrace]

/-- Witness for the amended C4: the encrypted `b.pdf` is second in the
request, gets exactly one failed empty-password attempt, the merge fails
naming it, and nothing is written. -/
theorem C4_encrypted_failfast_witness :
    (mergePdfs fsEncBad ["a.pdf", "b.pdf"] "out.pdf").outcome =
      Outcome.errorDialog "Could not read b.pdf: File has not been decrypted" ∧
    countEv (Ev.decrypt "b.pdf")
      (mergePdfs fsEncBad ["a.pdf", "b.pdf"] "out.pdf").trace = 1 ∧
    hasWrite (mergePdfs fsEncBad ["a.pdf", "b.pdf"] "out.pdf").trace = false ∧
    (mergePdfs fsEncBad ["a.pdf", "b.pdf"] "out.pdf").fs.files = fsEncBad.files :=
  C4_encrypted_failfast fsEncBad ["a.pdf"] "b.pdf" [] "out.pdf" rfl rfl rfl

/-- Counterexample to C5 as stated: the destination `a.pdf` is also the
first source, yet the merge succeeds (no `OutputEqualsInput` failure
exists) and overwrites the source with the merged pages. -/
theorem C5_counterexample :
    (mergePdfs fsOk ["a.pdf", "b.pdf"] "a.pdf").outcome = Outcome.success "a.pdf" ∧
    (mergePdfs fsOk ["a.pdf", "b.pdf"] "a.pdf").fs.files "a.pdf" =
      some ⟨[1, 2], false, false⟩ :=
  ⟨rfl, rfl⟩

/-- Claim C5 (amended): `merge_pdfs` performs no destination-equals-source
check at all.  When the destination path is one of the sources (and the
sources are readable and the write succeeds), the merge proceeds, writes,
and succeeds, replacing that source file with the merged output. -/
theorem C5_output_equals_input_overwrites (fs : FS) (files : List String)
    (out : String) (_hmem : out ∈ files)
    (h1 : dirOkB fs out = true) (h2 : files.all (readableB fs.files) = true)
    (h3 : fs.writeOk out = true) :
    (mergePdfs fs files out).outcome = Outcome.success out ∧
    hasWrite (mergePdfs fs files out).trace = true ∧
    (mergePdfs fs files out).fs.files out =
      some ⟨(files.map (pagesOf fs.files)).flatten, false, false⟩ := by
  rw [mergePdfs_success fs files out h1 h2 h3]
  refine ⟨rfl, ?_, withFile_files_self _ _ _⟩
  simp [hasWrite_append, hasWrite]

/-- Witness for the amended C5: destination `b.pdf` is the second source;
the merge succeeds, writes, and replaces it. -/
theorem C5_output_equals_input_witness :
    (mergePdfs fsOk ["a.pdf", "b.pdf"] "b.pdf").outcome = Outcome.success "b.pdf" ∧
    hasWrite (mergePdfs fsOk ["a.pdf", "b.pdf"] "b.pdf").trace = true ∧
    (mergePdfs fsOk ["a.pdf", "b.pdf"] "b.pdf").fs.files "b.pdf" =
      some ⟨[1, 2], false, false⟩ :=
  C5_output_equals_input_overwrites fsOk ["a.pdf", "b.pdf"] "b.pdf"
    (by simp) rfl rfl rfl

/-- Counterexample to C6 as stated: under the canonicalization `canonEx`,
the two distinct strings `"x.pdf"` and `"./x.pdf"` resolve to the same
underlying file, yet `add_files_from_list` adds both — there is no
`DuplicateInput` failure (the operation cannot fail at all) and no
canonical-path comparison. -/
theorem C6_counterexample :
    canonEx "x.pdf" = canonEx "./x.pdf" ∧ "x.pdf" ≠ "./x.pdf" ∧
    addFilesFromList [] ["x.pdf", "./x.pdf"] = ["x.pdf", "./x.pdf"] :=
  ⟨rfl, by decide, rfl⟩

/-- Claim C6 (amended): `add_files_from_list` compares entries by string
equality only and never fails: any two candidate paths that are distinct as
strings are both appended (regardless of whether they alias the same
underlying file), while a string-equal duplicate is silently skipped. -/
theorem C6_string_equality_only (cur : List String) (a b : String)
    (ha : a ∉ cur) (hb : b ∉ cur) (hab : a ≠ b) :
    addFilesFromList cur [a, b] = cur ++ [a, b] ∧
    (∀ f ∈ cur, addFilesFromList cur [f] = cur) := by
  constructor
  · unfold addFilesFromList
    simp only [List.foldl_cons, List.foldl_nil]
    rw [if_neg ha]
    have hbn : b ∉ cur ++ [a] := by
      simp [List.mem_append, hb, Ne.symm hab]
    rw [if_neg hbn, List.append_assoc]
    rfl
  · intro f hf
    unfold addFilesFromList
    simp [List.foldl_cons, List.foldl_nil, hf]

/-- Witness for the amended C6: two fresh distinct paths are both appended;
a string-equal duplicate is skipped without error. -/
theorem C6_string_equality_only_witness :
    addFilesFromList ["x.pdf"] ["y.pdf", "z.pdf"] = ["x.pdf", "y.pdf", "z.pdf"] ∧
    addFilesFromList ["x.pdf"] ["x.pdf"] = ["x.pdf"] :=
  ⟨(C6_string_equality_only ["x.pdf"] "y.pdf" "z.pdf"
      (by decide) (by decide) (by decide)).1,
   (C6_string_equality_only ["x.pdf"] "y.pdf" "z.pdf"
      (by decide) (by decide) (by decide)).2 "x.pdf" (by decide)⟩

/-- Counterexample to C7 as stated: the destination `out.pdf` already
exists (holding page 99), yet the merge does not fail with `OutputExists`
under any policy — no overwrite policy exists in the code; it simply
proceeds and overwrites. -/
theorem C7_counterexample :
    fsExisting.files "out.pdf" = some ⟨[99], false, false⟩ ∧
    (mergePdfs fsExisting ["a.pdf", "b.pdf"] "out.pdf").outcome =
      Outcome.success "out.pdf" ∧
    (mergePdfs fsExisting ["a.pdf", "b.pdf"] "out.pdf").fs.files "out.pdf" =
      some ⟨[1, 2], false, false⟩ :=
  ⟨rfl, rfl, rfl⟩

/-- Claim C7 (amended): `merge_pdfs` has no overwrite policy and no
`OutputExists` check.  An existing destination is always overwritten
(force-like behaviour): the merge succeeds and the new merged content fully
replaces the old file content. -/
theorem C7_existing_destination_overwritten (fs : FS) (files : List String)
    (out : String) (old : PdfFile)
    (_h0 : fs.files out = some old)
    (h1 : dirOkB fs out = true) (h2 : files.all (readableB fs.files) = true)
    (h3 : fs.writeOk out = true) :
    (mergePdfs fs files out).outcome = Outcome.success out ∧
    (mergePdfs fs files out).fs.files out =
      some ⟨(files.map (pagesOf fs.files)).flatten, false, false⟩ := by
  rw [mergePdfs_success fs files out h1 h2 h3]
  exact ⟨rfl, withFile_files_self _ _ _⟩

/-- Witness for the amended C7: the pre-existing `out.pdf` (page 99) is
replaced by the merged pages `[2, 1]`. -/
theorem C7_existing_destination_witness :
    (mergePdfs fsExisting ["b.pdf", "a.pdf"] "out.pdf").outcome =
      Outcome.success "out.pdf" ∧
    (mergePdfs fsExisting ["b.pdf", "a.pdf"] "out.pdf").fs.files "out.pdf" =
      some ⟨[2, 1], false, false⟩ :=
  C7_existing_destination_overwritten fsExisting ["b.pdf", "a.pdf"] "out.pdf"
    ⟨[99], false, false⟩ rfl rfl rfl rfl

/-- Counterexample to C8 as stated: the GUI variant's destination parent
directory `newdir` does not exist, yet the merge does not reject the
request — it creates the directory (`os.makedirs`) and succeeds. -/
theorem C8_counterexample :
    fsOk.dirs "newdir" = false ∧
    (mergePdfs fsOk ["a.pdf", "b.pdf"] "newdir/out.pdf").outcome =
      Outcome.success "newdir/out.pdf" ∧
    Ev.mkdir "newdir" ∈ (mergePdfs fsOk ["a.pdf", "b.pdf"] "newdir/out.pdf").trace :=
  ⟨rfl, rfl, by decide⟩

/-- Claim C8 (amended): when the destination's parent directory does not
exist (and creating it is possible), the GUI merge silently creates the
directory and proceeds to a successful merge; it never rejects the request
for a missing parent directory. -/
theorem C8_missing_directory_created (fs : FS) (files : List String) (out : String)
    (hd : (dirname out == "" || fs.dirs (dirname out)) = false)
    (hmk : fs.mkdirOk (dirname out) = true)
    (h2 : files.all (readableB fs.files) = true) (h3 : fs.writeOk out = true) :
    (mergePdfs fs files out).outcome = Outcome.success out ∧
    Ev.mkdir (dirname out) ∈ (mergePdfs fs files out).trace ∧
    (mergePdfs fs files out).fs.dirs (dirname out) = true := by
  have h1 : dirOkB fs out = true := by
    unfold dirOkB
    rw [hd, Bool.false_or]
    exact hmk
  rw [mergePdfs_success fs files out h1 h2 h3]
  refine ⟨rfl, ?_, ?_⟩
  · have hm : mkTr0 fs out = [Ev.mkdir (dirname out)] := by
      unfold mkTr0
      rw [hd]
      simp
    rw [hm]
    simp
  · exact fsAfterDir_dirs_created fs out hd

/-- Witness for the amended C8: parent directory `sub` is missing; the
merge creates it, succeeds, and leaves the directory in place. -/
theorem C8_missing_directory_witness :
    (mergePdfs fsOk ["a.pdf", "b.pdf"] "sub/out.pdf").outcome =
      Outcome.success "sub/out.pdf" ∧
    Ev.mkdir "sub" ∈ (mergePdfs fsOk ["a.pdf", "b.pdf"] "sub/out.pdf").trace ∧
    (mergePdfs fsOk ["a.pdf", "b.pdf"] "sub/out.pdf").fs.dirs "sub" = true :=
  C8_missing_directory_created fsOk ["a.pdf", "b.pdf"] "sub/out.pdf" rfl rfl rfl rfl

/-- Claim C9: the selected-files list never contains two string-equal
paths: starting from a duplicate-free list, `add_files_from_list` (which
appends only paths not already present), `remove_file` (deleting the
selected index) and `clear_all` all preserve the no-string-duplicates
invariant. -/
theorem C9_no_string_duplicates (cur : List String) (files : List String) (i : Nat)
    (h : cur.Nodup) :
    (addFilesFromList cur files).Nodup ∧ (removeFile cur i).Nodup ∧
    (clearAll).Nodup := by
  refine ⟨addFilesFromList_nodup files cur h, ?_, List.nodup_nil⟩
  exact h.sublist (List.eraseIdx_sublist cur i)

/-- Witness for C9: adding a mix of fresh and duplicate paths, removing
index 0, and clearing all preserve duplicate-freedom. -/
theorem C9_no_string_duplicates_witness :
    (addFilesFromList ["a.pdf"] ["b.pdf", "a.pdf"]).Nodup ∧
    (removeFile ["a.pdf"] 0).Nodup ∧ (clearAll).Nodup :=
  C9_no_string_duplicates ["a.pdf"] ["b.pdf", "a.pdf"] 0 (by simp)

/-- Claim C10: `merge_pdfs` is total with respect to exceptions: whatever
the environment does, any exception raised by the body (reading a source,
creating the output directory, writing the output) is caught by the outer
handler and mapped to a "Merge failed: ..." error dialog, any inner
`return` keeps its own dialog, and on every path the merge button is
re-enabled by the `finally` block. -/
theorem C10_exceptions_caught_button_reenabled (fs : FS) (files : List String)
    (out : String) :
    (mergePdfs fs files out).mergeBtnEnabled = true ∧
    (∀ e fs2 tr, mergeBody fs files out = (BodyResult.raised e, fs2, tr) →
      (mergePdfs fs files out).outcome = Outcome.errorDialog ("Merge failed: " ++ e)) ∧
    (∀ o fs2 tr, mergeBody fs files out = (BodyResult.returned o, fs2, tr) →
      (mergePdfs fs files out).outcome = o) := by
  refine ⟨?_, ?_, ?_⟩
  · unfold mergePdfs
    rcases hb : mergeBody fs files out with ⟨br, fs2, tr⟩
    cases br <;> rfl
  · intro e fs2 tr h
    unfold mergePdfs
    rw [h]
  · intro o fs2 tr h
    unfold mergePdfs
    rw [h]

/-- Witness for C10: with the write failing, the raised exception becomes
the "Merge failed: write failed" dialog and the button is re-enabled. -/
theorem C10_exceptions_caught_witness :
    (mergePdfs fsNoWrite ["a.pdf", "b.pdf"] "out.pdf").mergeBtnEnabled = true ∧
    (mergePdfs fsNoWrite ["a.pdf", "b.pdf"] "out.pdf").outcome =
      Outcome.errorDialog "Merge failed: write failed" :=
  ⟨(C10_exceptions_caught_button_reenabled fsNoWrite ["a.pdf", "b.pdf"] "out.pdf").1,
   (C10_exceptions_caught_button_reenabled fsNoWrite ["a.pdf", "b.pdf"] "out.pdf").2.1
     "write failed" _ _ rfl⟩

end PdfMerge
